import Mathlib

/-!
Verification of the Dependency Lifecycle Resolution Engine of `eol-check`.

The definitions below are a shallow embedding of the Python sources:

* `eol_check/utils/version.py` — `parse_version`, `normalize_version`,
  `has_major_version_change`;
* `end_of_life_checker/utils/cache.py` — the file-backed TTL `Cache`;
* `end_of_life_checker/api/endoflife_client.py` — the catalog client
  (`_get_with_cache`, `_get_product_name`, `_is_product_available`,
  `get_eol_info`);
* `eol_check/core.py` — the per-dependency check `check_dependency` and the
  summary aggregation of `check_project`.

Conventions of the embedding:

* The file system behind the cache is a function from file names to an
  optional stored file; a stored file is either a well-formed JSON document
  `{value, expires_at}` or corrupt (unreadable, or missing fields), in which
  case reading raises inside `Cache.get` and degrades to a miss.
* Wall-clock time (`time.time()`) is an integer number of seconds.
* The network is a function from endpoint to `Except`: `.ok` is a parsed
  JSON response (a list of release cycles), `.error` models `requests`
  raising an exception.
* A date string that `datetime.strptime(·, "%Y-%m-%d")` parses successfully
  is represented as an already-parsed `Date` value; an `eol` field holding a
  JSON boolean makes `strptime` raise `TypeError`, which the embedding
  represents explicitly in `checkDependency`.
* Python exceptions are `Except String`; dictionaries missing optional keys
  are `Option` fields set to `none`.
* String primitives (`startswith`, `replace`, `lower`, `split`, …) are
  embedded as structurally recursive functions over the character list of
  the string, so that every definition evaluates by kernel reduction.
-/

/-- `s.startswith(p)`: the characters of `p` are a prefix of those of `s`. -/
def strStartsWith (s p : String) : Bool :=
  p.data.isPrefixOf s.data

/-- `s.endswith(p)`: the characters of `p` are a suffix of those of `s`. -/
def strEndsWith (s p : String) : Bool :=
  p.data.isSuffixOf s.data

/-- `s[n:]` on character counts. -/
def strDrop (s : String) (n : Nat) : String :=
  String.mk (s.data.drop n)

/-- `s[:-n]` on character counts. -/
def strDropRight (s : String) (n : Nat) : String :=
  String.mk (s.data.take (s.data.length - n))

/-- `s.replace(a, b)` for one-character patterns (the only patterns the
source uses: `"/"`, `":"`, `"_"`). -/
def replaceChar (s : String) (a b : Char) : String :=
  String.mk (s.data.map (fun c => if c = a then b else c))

/-- `s.lower()` (the source only feeds ASCII package names through it). -/
def strToLower (s : String) : String :=
  String.mk (s.data.map Char.toLower)

/-- `s.split(".")[0]`: the characters before the first dot (the whole string
when there is no dot, and `""` for `""`, exactly as in Python). -/
def firstDotComponent (s : String) : String :=
  String.mk (s.data.takeWhile (fun c => c ≠ '.'))

/-- `".".join(parts)`. -/
def joinDots : List String → String
  | [] => ""
  | [x] => x
  | x :: y :: xs => x ++ "." ++ joinDots (y :: xs)

/-- Scanner behind `re.findall(r'\d+', s)` followed by `int(...)` in
`parse_version` (`eol_check/utils/version.py`): accumulate every maximal run
of decimal digits as a number, in order of appearance. The second argument
is the run currently being read. -/
def parseVersionAux : List Char → Option Nat → List Nat
  | [], none => []
  | [], some n => [n]
  | c :: cs, acc =>
    if c.isDigit then
      parseVersionAux cs (some (acc.getD 0 * 10 + (c.toNat - 48)))
    else
      match acc with
      | none => parseVersionAux cs none
      | some n => n :: parseVersionAux cs none

/-- `parse_version` (`eol_check/utils/version.py`): all maximal digit runs
of the string, as integers. -/
def parse_version (s : String) : List Nat :=
  parseVersionAux s.data none

/-- `re.sub(r'^v', '', s)`: remove one leading `v` if present. -/
def stripLeadingV (s : String) : String :=
  if strStartsWith s "v" then strDrop s 1 else s

/-- `normalize_version` (`eol_check/utils/version.py`): strip a leading `v`,
extract the digit runs, join them with dots. -/
def normalize_version (s : String) : String :=
  joinDots ((parse_version (stripLeadingV s)).map toString)

/-- `has_major_version_change` (`eol_check/utils/version.py`). -/
def has_major_version_change (currentVersion recommendedVersion : String) : Bool :=
  if currentVersion = "" ∨ recommendedVersion = "" then false
  else
    match parse_version currentVersion, parse_version recommendedVersion with
    | [], _ => false
    | _ :: _, [] => false
    | c :: _, r :: _ => c ≠ r

/-- A calendar date, as produced by `datetime.strptime(s, "%Y-%m-%d").date()`. -/
structure Date where
  year : Nat
  month : Nat
  day : Nat
deriving DecidableEq, Repr

/-- Gregorian leap-year rule. -/
def isLeapYear (y : Nat) : Bool :=
  (y % 4 == 0 && y % 100 != 0) || y % 400 == 0

/-- Days in the months strictly before month `m` of a common year. -/
def cumulativeDaysBeforeMonth : List Nat :=
  [0, 31, 59, 90, 120, 151, 181, 212, 243, 273, 304, 334]

/-- `datetime.date.toordinal`: the day number of a valid calendar date,
counting 0001-01-01 as day 1. Subtracting two ordinals gives the
`timedelta.days` of the corresponding date subtraction. -/
def Date.toOrdinal (d : Date) : Nat :=
  let y := d.year - 1
  365 * y + y / 4 - y / 100 + y / 400
    + cumulativeDaysBeforeMonth.getD (d.month - 1) 0
    + (if isLeapYear d.year && decide (d.month > 2) then 1 else 0)
    + d.day

/-- `(a - b).days` for two parsed dates. -/
def dateDiffDays (a b : Date) : Int :=
  (a.toOrdinal : Int) - (b.toOrdinal : Int)

/-- One file under the cache directory: either a well-formed
`{value, expires_at}` JSON document, or corrupt (unreadable JSON, or a
document missing one of the two keys — reading either raises inside the
`try` of `Cache.get`). -/
inductive StoredFile (α : Type) where
  | good (value : α) (expiresAt : Int)
  | corrupt
deriving DecidableEq, Repr

/-- The cache directory: file name to contents. -/
def FileStore (α : Type) : Type :=
  String → Option (StoredFile α)

/-- A directory with no readable cache files. -/
def emptyStore (α : Type) : FileStore α :=
  fun _ => none

/-- `Cache._get_cache_path` (`end_of_life_checker/utils/cache.py`): escape
`/` and `:` to `_`, strip a trailing `.json`, then append `.json`. -/
def cacheFileName (key : String) : String :=
  let filename := replaceChar (replaceChar key '/' '_') ':' '_'
  let filename := if strEndsWith filename ".json" then strDropRight filename 5 else filename
  filename ++ ".json"

/-- `Cache.get` (`end_of_life_checker/utils/cache.py`): miss when the file
is absent or corrupt, miss when `expires_at < time.time()`, otherwise the
stored value. -/
def cacheGet {α : Type} (store : FileStore α) (now : Int) (key : String) : Option α :=
  match store (cacheFileName key) with
  | none => none
  | some .corrupt => none
  | some (.good value expiresAt) =>
    if expiresAt < now then none else some value

/-- `Cache.set` (`end_of_life_checker/utils/cache.py`): overwrite the file
for the key with `{value, expires_at := now + ttl}` (the embedding models
the successful write; a failed write is swallowed by the source and leaves
the store unchanged, which no claim quantifies over). -/
def cacheSet {α : Type} (store : FileStore α) (now : Int) (key : String)
    (value : α) (ttl : Int) : FileStore α :=
  fun f => if f = cacheFileName key then some (.good value (now + ttl)) else store f

/-- The `eol` field of one release cycle of the catalog response: either a
JSON boolean or a date string (represented parsed; see the header). -/
inductive EolValue where
  | jbool (b : Bool)
  | jdate (d : Date)
deriving DecidableEq, Repr

/-- One row of a product's catalog response, with the keys the source reads:
`cycle`, `eol` and `latest`. A missing key is `none`. -/
structure ReleaseCycle where
  cycle : Option String
  eol : Option EolValue
  latest : Option String
deriving DecidableEq, Repr

/-- Configuration of `EndOfLifeClient` (`offline_mode`, `force_update`,
`cache_ttl`). -/
structure ClientConfig where
  offlineMode : Bool
  forceUpdate : Bool
  cacheTtl : Int

/-- The network: endpoint to parsed response; `.error` models `requests`
raising (connection failure, `raise_for_status`, bad JSON). -/
def Network : Type :=
  String → Except String (List ReleaseCycle)

/-- The mutable state of one run: the cache directory and the per-run
`available_products_cache` memo of the client. -/
structure ClientState where
  cache : FileStore (List ReleaseCycle)
  availableProducts : String → Option Bool

/-- `self.product_mapping` of `EndOfLifeClient`
(`end_of_life_checker/api/endoflife_client.py`). -/
def product_mapping : List (String × String) :=
  [("react", "react"), ("angular", "angular"), ("vue", "vue"),
   ("node", "nodejs"), ("nodejs", "nodejs"),
   ("django", "django"), ("python", "python"),
   ("spring", "spring"), ("spring-boot", "spring-boot"), ("java", "java"),
   ("spring-boot-starter-parent", "spring-boot")]

/-- `EndOfLifeClient._get_product_name`: case-insensitive alias lookup,
retry with underscores normalized to hyphens, fall back to the lowercased
input. -/
def getProductName (packageName : String) : String :=
  let lower := strToLower packageName
  match product_mapping.lookup lower with
  | some p => p
  | none =>
    match product_mapping.lookup (replaceChar lower '_' '-') with
    | some p => p
    | none => lower

/-- The endpoint with a trailing `.json` stripped, as in
`EndOfLifeClient._get_with_cache`. -/
def cleanEndpointName (endpoint : String) : String :=
  if strEndsWith endpoint ".json" then strDropRight endpoint 5 else endpoint

/-- The cache key `_get_with_cache` derives from an endpoint. -/
def apiCacheKey (endpoint : String) : String :=
  "eol_api_" ++ cleanEndpointName endpoint

/-- The message of the `ValueError` raised by `_get_with_cache` in offline
mode without cached data. -/
def noCachedDataMsg (endpoint : String) : String :=
  "No cached data available for " ++ endpoint ++ " and offline mode is enabled"

/-- `EndOfLifeClient._get_with_cache`: unless `force_update`, return a
truthy cached value; otherwise raise `ValueError` in offline mode; otherwise
fetch from the network and overwrite the cache entry with the configured
TTL. -/
def getWithCache (cfg : ClientConfig) (net : Network) (now : Int)
    (endpoint : String) (st : ClientState) :
    Except String (List ReleaseCycle × ClientState) :=
  let cacheKey := apiCacheKey endpoint
  let fetchBranch : Except String (List ReleaseCycle × ClientState) :=
    if cfg.offlineMode then
      .error (noCachedDataMsg endpoint)
    else
      match net endpoint with
      | .error e => .error e
      | .ok data =>
        .ok (data, { st with cache := cacheSet st.cache now cacheKey data cfg.cacheTtl })
  if cfg.forceUpdate then
    fetchBranch
  else
    match cacheGet st.cache now cacheKey with
    | none => fetchBranch
    | some cachedData =>
      if cachedData.isEmpty then fetchBranch else .ok (cachedData, st)

/-- `EndOfLifeClient._is_product_available`: read-through memo over one
probing `_get_with_cache` call; every exception of the probe is swallowed
and recorded as unavailable. -/
def isProductAvailable (cfg : ClientConfig) (net : Network) (now : Int)
    (productName : String) (st : ClientState) : Bool × ClientState :=
  match st.availableProducts productName with
  | some b => (b, st)
  | none =>
    match getWithCache cfg net now productName st with
    | .ok (_, st') =>
      (true, { st' with availableProducts :=
                 fun p => if p = productName then some true else st'.availableProducts p })
    | .error _ =>
      (false, { st with availableProducts :=
                  fun p => if p = productName then some false else st.availableProducts p })

/-- Pass-1 predicate of `get_eol_info`: the row has a `cycle` key and the
cycle string is a prefix of the normalized version. -/
def cycleExactMatch (normalizedVersion : String) (verInfo : ReleaseCycle) : Bool :=
  match verInfo.cycle with
  | some c => strStartsWith normalizedVersion c
  | none => false

/-- Pass-2 predicate of `get_eol_info`: the row has a `cycle` key and its
leading dot-separated component equals the normalized version's. -/
def cycleMajorMatch (normalizedVersion : String) (verInfo : ReleaseCycle) : Bool :=
  match verInfo.cycle with
  | some c => firstDotComponent normalizedVersion == firstDotComponent c
  | none => false

/-- The two matching passes of `get_eol_info` over the fetched release
cycles: first release cycle (in catalog order) whose `cycle` is a string
prefix of the normalized version; if none, first release cycle with the
same leading dot-separated component. -/
def matchCycles (normalizedVersion : String) (versions : List ReleaseCycle) :
    Option ReleaseCycle :=
  match versions.find? (cycleExactMatch normalizedVersion) with
  | some verInfo => some verInfo
  | none => versions.find? (cycleMajorMatch normalizedVersion)

/-- The tail of `get_eol_info` after the availability probe returned `pa`:
return `none` for an unavailable product, otherwise fetch the product's
release cycles (any exception caught as `none`) and match the normalized
version against them with `matchCycles`. -/
def getEolInfoCore (cfg : ClientConfig) (net : Network) (now : Int)
    (version productName : String) (pa : Bool × ClientState) :
    Option ReleaseCycle × ClientState :=
  if !pa.1 then (none, pa.2)
  else
    match getWithCache cfg net now productName pa.2 with
    | .error _ => (none, pa.2)
    | .ok (versions, st') => (matchCycles (normalize_version version) versions, st')

/-- `EndOfLifeClient.get_eol_info`: resolve the product name, probe
availability, then fetch and match (`getEolInfoCore`). -/
def getEolInfo (cfg : ClientConfig) (net : Network) (now : Int)
    (packageName version : String) (st : ClientState) :
    Option ReleaseCycle × ClientState :=
  getEolInfoCore cfg net now version (getProductName packageName)
    (isProductAvailable cfg net now (getProductName packageName) st)

/-- One dependency record handed to the orchestrator. -/
structure Dep where
  name : String
  version : String
deriving DecidableEq, Repr

/-- The per-dependency result dictionary built by `check_dependency`
(`eol_check/core.py`). A key the source leaves out of a branch's dictionary
is `none` (respectively `false` for `has_breaking_changes`). -/
structure DepResult where
  name : String
  version : String
  status : String
  eolDate : Option EolValue
  daysRemaining : Option Int
  recommendedVersion : Option String
  hasBreakingChanges : Bool
  error : Option String
deriving DecidableEq, Repr

/-- The message of the `TypeError` raised by
`datetime.strptime(b, "%Y-%m-%d")` when `b` is a JSON boolean. -/
def strptimeTypeErrorMsg : String :=
  "strptime() argument 1 must be str, not bool"

/-- The active-cycle filter of the recommendation block of
`check_dependency`: `v.get("eol") is False`, or `eol` is a date string
strictly later than today. -/
def isActiveCycle (today : Date) (v : ReleaseCycle) : Bool :=
  match v.eol with
  | some (.jbool false) => true
  | some (.jdate d) => d.toOrdinal > today.toOrdinal
  | _ => false

/-- The pure tail of the recommendation block of `check_dependency` (lines
191-206 of `eol_check/core.py`), after `get_product_versions` returned:
keep the active cycles; if any, recommend the first one's `latest` and flag
a breaking change when the recommendation is truthy and
`has_major_version_change`; if none, fall back to the matched cycle's own
`latest` with the flag left `False`. -/
def recommendFromVersions (today : Date) (depVersion : String)
    (allVersions : List ReleaseCycle) (eolInfo : ReleaseCycle) :
    Option String × Bool :=
  match allVersions.filter (isActiveCycle today) with
  | latestActive :: _ =>
    match latestActive.latest with
    | some r => (some r, r != "" && has_major_version_change depVersion r)
    | none => (none, false)
  | [] => (eolInfo.latest, false)

/-- The UNKNOWN result dictionary of `check_dependency`. -/
def unknownResult (dep : Dep) : DepResult :=
  { name := dep.name, version := dep.version, status := "UNKNOWN",
    eolDate := none, daysRemaining := none, recommendedVersion := none,
    hasBreakingChanges := false, error := none }

/-- `check_dependency` (`eol_check/core.py`): one dependency's resolution,
returning the result dictionary and the summary key it increments, plus the
final client state. The embedded exception flow: `get_eol_info` never
raises; `strptime` on a boolean `eol` raises `TypeError`, which the outer
handler converts to an ERROR result with summary key `"unknown"`; the inner
recommendation handler swallows fetch failures, leaving no recommendation. -/
def classifyStatusKey (daysRemaining thresholdDays : Int) : String × String :=
  if daysRemaining < 0 then ("CRITICAL", "critical")
  else if daysRemaining < thresholdDays then ("WARNING", "warning")
  else ("OK", "ok")

/-- The stateful head of the recommendation block of `check_dependency`:
re-resolve the product name, and if it is truthy fetch the product's release
cycles once more (its `try` swallowing any exception into "no
recommendation") and hand them to `recommendFromVersions`. -/
def recommendStep (cfg : ClientConfig) (net : Network) (now : Int)
    (today : Date) (dep : Dep) (eolInfo : ReleaseCycle) (st1 : ClientState) :
    (Option String × Bool) × ClientState :=
  let productName := getProductName dep.name
  if productName ≠ "" then
    match getWithCache cfg net now productName st1 with
    | .error _ => ((none, false), st1)
    | .ok (allVersions, st2) =>
      (recommendFromVersions today dep.version allVersions eolInfo, st2)
  else ((none, false), st1)

/-- The branch structure of `check_dependency` once `get_eol_info` has
returned `eolInfoOpt` with client state `st1`. -/
def checkDependencyCore (cfg : ClientConfig) (net : Network) (now : Int)
    (today : Date) (thresholdDays : Int) (dep : Dep)
    (eolInfoOpt : Option ReleaseCycle) (st1 : ClientState) :
    (DepResult × String) × ClientState :=
  match eolInfoOpt with
  | none => ((unknownResult dep, "unknown"), st1)
  | some eolInfo =>
    match eolInfo.eol with
    | none => ((unknownResult dep, "unknown"), st1)
    | some (.jbool _) =>
      (({ name := dep.name, version := dep.version, status := "ERROR",
          eolDate := none, daysRemaining := none, recommendedVersion := none,
          hasBreakingChanges := false, error := some strptimeTypeErrorMsg },
        "unknown"), st1)
    | some (.jdate eolDate) =>
      let daysRemaining : Int := dateDiffDays eolDate today
      let statusKey := classifyStatusKey daysRemaining thresholdDays
      let recStep :=
        if statusKey.1 = "CRITICAL" ∨ statusKey.1 = "WARNING" then
          recommendStep cfg net now today dep eolInfo st1
        else ((none, false), st1)
      (({ name := dep.name, version := dep.version, status := statusKey.1,
          eolDate := some (.jdate eolDate), daysRemaining := some daysRemaining,
          recommendedVersion := recStep.1.1, hasBreakingChanges := recStep.1.2,
          error := none }, statusKey.2), recStep.2)

def checkDependency (cfg : ClientConfig) (net : Network) (now : Int)
    (today : Date) (thresholdDays : Int) (dep : Dep) (st : ClientState) :
    (DepResult × String) × ClientState :=
  checkDependencyCore cfg net now today thresholdDays dep
    (getEolInfo cfg net now dep.name dep.version st).1
    (getEolInfo cfg net now dep.name dep.version st).2

/-- The aggregate counters of `check_project`'s `results["summary"]`. -/
structure Summary where
  critical : Nat
  warning : Nat
  ok : Nat
  unknown : Nat
deriving DecidableEq, Repr

/-- The initial summary of `check_project`. -/
def Summary.zero : Summary :=
  ⟨0, 0, 0, 0⟩

/-- `results["summary"][summary_key] += 1` for the four keys
`check_dependency` can produce. -/
def bumpSummary (s : Summary) (key : String) : Summary :=
  if key = "critical" then { s with critical := s.critical + 1 }
  else if key = "warning" then { s with warning := s.warning + 1 }
  else if key = "ok" then { s with ok := s.ok + 1 }
  else if key = "unknown" then { s with unknown := s.unknown + 1 }
  else s

/-- The aggregation loop of `check_project`: fold the summary keys of the
completed `(dep_result, summary_key)` pairs, in completion order, over the
zero summary. -/
def aggregateSummary (pairs : List (DepResult × String)) : Summary :=
  pairs.foldl (fun s p => bumpSummary s p.2) Summary.zero

/-- Total of the four counters. -/
def Summary.total (s : Summary) : Nat :=
  s.critical + s.warning + s.ok + s.unknown

/-- The four summary keys `check_dependency` can hand back. -/
def validSummaryKeys : List String :=
  ["critical", "warning", "ok", "unknown"]


/-- Skipping a non-digit character with no open digit run leaves the scanner
unchanged. -/
theorem parseVersionAux_cons_nondigit (c : Char) (cs : List Char)
    (h : c.isDigit = false) :
    parseVersionAux (c :: cs) none = parseVersionAux cs none := by
  simp [parseVersionAux, h]

/-- Stripping the leading `v` does not change the digit runs extracted by
`parse_version`. -/
theorem parse_version_stripLeadingV (s : String) :
    parse_version (stripLeadingV s) = parse_version s := by
  obtain ⟨cs⟩ := s
  have hv : ("v" : String).data = ['v'] := rfl
  unfold stripLeadingV strStartsWith
  rw [hv]
  cases cs with
  | nil => rfl
  | cons c cs' =>
    show parse_version (if (List.isPrefixOf ['v'] (c :: cs') : Bool) then _ else _) = _
    by_cases hc : c = 'v'
    · subst hc
      simp only [List.isPrefixOf, List.isPrefixOf_nil_left, Bool.and_true, beq_self_eq_true,
        if_true]
      show parse_version (strDrop (String.mk ('v' :: cs')) 1) = _
      unfold parse_version strDrop
      show parseVersionAux cs' none = parseVersionAux ('v' :: cs') none
      exact (parseVersionAux_cons_nondigit 'v' cs' rfl).symm
    · have : (List.isPrefixOf ['v'] (c :: cs') : Bool) = false := by
        simp [List.isPrefixOf]
        exact fun h => absurd h.symm hc
      rw [this]
      simp

/-- C3 counterexample: on `"v2.7.16rc1"` the source's `normalize_version`
also keeps the digit run of the `rc1` suffix and returns `"2.7.16.1"`, not
the `"2.7.16"` the claim requires. -/
theorem c3_counterexample :
    normalize_version "v2.7.16rc1" = "2.7.16.1" ∧
    normalize_version "v2.7.16rc1" ≠ "2.7.16" := by
  decide

/-- C3 (amended): version normalization strips a leading `v` — which never
changes the extracted digit runs — and keeps EVERY maximal run of decimal
digits of the string, joined with dots, not only the leading run of
dot-separated integer components; in particular
`normalize_version "v2.7.16rc1"` returns `"2.7.16.1"`. -/
theorem c3_normalize_version_digit_runs :
    (∀ s : String,
      normalize_version s = joinDots ((parse_version s).map toString)) ∧
    parse_version "v2.7.16rc1" = [2, 7, 16, 1] ∧
    normalize_version "v2.7.16rc1" = "2.7.16.1" := by
  refine ⟨fun s => ?_, by decide, by decide⟩
  unfold normalize_version
  rw [parse_version_stripLeadingV]

/-- C7 counterexample: at the instant the clock equals the stored expiry
(`expiresAt = now`), `Cache.get` still returns the value — the source's
expiry test is the strict `expires_at < time.time()` — contradicting the
claim's "miss exactly when … `expiresAt <= now`". -/
theorem c7_counterexample :
    ((0 : Int) + 100 ≤ 100) ∧
    cacheGet (cacheSet (emptyStore Nat) 0 "k" 5 100) 100 "k" = some 5 := by
  exact ⟨by decide, by decide⟩

/-- C7 (amended): `set(k, v, ttl)` followed immediately by `get(k)` returns
`v` (for a non-negative ttl), once the clock passes the stored expiry
`get(k)` returns miss, and in general `get(k)` misses exactly when there is
no entry, the entry is corrupt, or `expiresAt < now` STRICTLY (at
`expiresAt = now` the value is still returned); `get` is total, so corrupt
data degrades to a miss rather than an exception. -/
theorem c7_cache_contract {α : Type} (store : FileStore α) (k : String)
    (v : α) (ttl now now2 now3 : Int) :
    (0 ≤ ttl → cacheGet (cacheSet store now k v ttl) now k = some v) ∧
    (now + ttl < now2 → cacheGet (cacheSet store now k v ttl) now2 k = none) ∧
    (cacheGet store now3 k = none ↔
      store (cacheFileName k) = none ∨
      store (cacheFileName k) = some .corrupt ∨
      ∃ w e, store (cacheFileName k) = some (.good w e) ∧ e < now3) := by
  refine ⟨?_, ?_, ?_⟩
  · intro httl
    have hni : ¬ (now + ttl < now) := by omega
    simp [cacheGet, cacheSet, hni]
  · intro hlate
    simp [cacheGet, cacheSet, hlate]
  · rcases hs : store (cacheFileName k) with _ | sf
    · simp [cacheGet, hs]
    · cases sf with
      | corrupt => simp [cacheGet, hs]
      | good w e =>
        by_cases he : e < now3
        · exact iff_of_true (by simp [cacheGet, hs, he]) (Or.inr (Or.inr ⟨w, e, rfl, he⟩))
        · simp [cacheGet, hs, he]
          omega

/-- Witness for the amended cache contract at concrete inputs. -/
theorem c7_cache_contract_witness :
    cacheGet (cacheSet (emptyStore Nat) 0 "eol_api_python" 7 86400) 0 "eol_api_python" = some 7 ∧
    cacheGet (cacheSet (emptyStore Nat) 0 "eol_api_python" 7 86400) 86401 "eol_api_python" = none ∧
    cacheGet (emptyStore Nat) 5 "eol_api_python" = none :=
  ⟨(c7_cache_contract (emptyStore Nat) "eol_api_python" 7 86400 0 86401 5).1 (by decide),
   (c7_cache_contract (emptyStore Nat) "eol_api_python" 7 86400 0 86401 5).2.1 (by decide),
   (c7_cache_contract (emptyStore Nat) "eol_api_python" 7 86400 0 86401 5).2.2.mpr (Or.inl rfl)⟩

/-- Default client configuration of a plain run: online, no forced update,
default TTL of 24h. -/
def cfgDefault : ClientConfig :=
  ⟨false, false, 86400⟩

/-- A fresh run: empty cache directory, empty availability memo. -/
def freshState : ClientState :=
  ⟨emptyStore _, fun _ => none⟩

/-- A catalog row used by several concrete scenarios below. -/
def c4Cycle : ReleaseCycle :=
  ⟨some "3.2", some (.jbool false), none⟩

/-- A network where only the product `django` exists. -/
def c4Net : Network :=
  fun e => if e = "django" then .ok [c4Cycle] else .error "HTTP 404"

/-- A state whose cache holds a valid, unexpired entry for `django`. -/
def c4State : ClientState :=
  ⟨cacheSet (emptyStore _) 0 "eol_api_django" [c4Cycle] 86400, fun _ => none⟩

/-- C4 counterexample: with force-update AND offline mode both set, a fresh
valid cache entry present and the network able to answer, `_get_with_cache`
neither fetches nor returns the entry: the offline check precedes the fetch,
so it raises `ValueError` (NoCachedData) — force-update does NOT fetch
"regardless of offline mode". -/
theorem c4_counterexample :
    cacheGet c4State.cache 0 "eol_api_django" = some [c4Cycle] ∧
    c4Net "django" = .ok [c4Cycle] ∧
    getWithCache ⟨true, true, 86400⟩ c4Net 0 "django" c4State =
      .error (noCachedDataMsg "django") :=
  ⟨rfl, rfl, rfl⟩

/-- C4 (amended): `_get_with_cache` applies its steps in the order: truthy
cache hit unless force-update, then the offline failure, then the network
fetch. Force-update bypasses only the cache read — offline mode still takes
precedence over the network, so with both flags set the call fails with
NoCachedData; only with offline mode off does force-update always fetch and
overwrite the cache entry with the configured TTL. -/
theorem c4_get_with_cache_policy (cfg : ClientConfig) (net : Network)
    (now : Int) (endpoint : String) (st : ClientState) :
    (cfg.forceUpdate = false →
      ∀ v, cacheGet st.cache now (apiCacheKey endpoint) = some v → v ≠ [] →
        getWithCache cfg net now endpoint st = .ok (v, st)) ∧
    ((cfg.forceUpdate = true ∨
        cacheGet st.cache now (apiCacheKey endpoint) = none ∨
        cacheGet st.cache now (apiCacheKey endpoint) = some []) →
      (cfg.offlineMode = true →
        getWithCache cfg net now endpoint st = .error (noCachedDataMsg endpoint)) ∧
      (cfg.offlineMode = false →
        getWithCache cfg net now endpoint st =
          match net endpoint with
          | .error e => .error e
          | .ok data =>
            .ok (data, { st with
              cache := cacheSet st.cache now (apiCacheKey endpoint) data cfg.cacheTtl }))) := by
  constructor
  · intro hforce v hv hne
    simp only [getWithCache]
    rw [hforce]
    simp only [Bool.false_eq_true, if_false, hv]
    simp [List.isEmpty_iff, hne]
  · intro hcase
    have step : ∀ P : Except String (List ReleaseCycle × ClientState) → Prop,
        (P (if cfg.offlineMode then .error (noCachedDataMsg endpoint)
            else match net endpoint with
              | .error e => .error e
              | .ok data =>
                .ok (data, { st with
                  cache := cacheSet st.cache now (apiCacheKey endpoint) data cfg.cacheTtl }))) →
        P (getWithCache cfg net now endpoint st) := by
      intro P hP
      rcases hcase with hforce | hmiss | hfalsy
      · simpa [getWithCache, hforce] using hP
      · cases hf : cfg.forceUpdate <;>
          simpa [getWithCache, hf, hmiss] using hP
      · cases hf : cfg.forceUpdate <;>
          simpa [getWithCache, hf, hfalsy] using hP
    constructor
    · intro hoff
      exact step (fun r => r = .error (noCachedDataMsg endpoint)) (by rw [if_pos hoff])
    · intro hoff
      exact step (fun r => r = _) (by rw [if_neg (by simp [hoff])])

/-- Witness for the amended `_get_with_cache` policy: a truthy cache hit is
returned as-is without touching the state, and force-update plus offline
mode errors out. -/
theorem c4_policy_witness :
    getWithCache ⟨false, false, 86400⟩ c4Net 0 "django" c4State = .ok ([c4Cycle], c4State) ∧
    getWithCache ⟨true, true, 86400⟩ c4Net 0 "django" c4State = .error (noCachedDataMsg "django") :=
  ⟨(c4_get_with_cache_policy ⟨false, false, 86400⟩ c4Net 0 "django" c4State).1 rfl
      [c4Cycle] rfl (by decide),
   ((c4_get_with_cache_policy ⟨true, true, 86400⟩ c4Net 0 "django" c4State).2 (Or.inl rfl)).1 rfl⟩

/-- C10: a valid, non-expired cache entry whose stored value is falsy (the
empty list) is treated by `_get_with_cache` exactly like a miss: the entry
is a `Cache.get` hit, yet outside offline mode the client refetches from
the network and overwrites the entry, and in offline mode it fails as if no
cached data existed. -/
theorem c10_falsy_cached_value (cfg : ClientConfig) (net : Network)
    (now : Int) (endpoint : String) (st : ClientState) (e : Int)
    (hforce : cfg.forceUpdate = false)
    (hfile : st.cache (cacheFileName (apiCacheKey endpoint)) = some (.good [] e))
    (hfresh : ¬ e < now) :
    cacheGet st.cache now (apiCacheKey endpoint) = some [] ∧
    (cfg.offlineMode = true →
      getWithCache cfg net now endpoint st = .error (noCachedDataMsg endpoint)) ∧
    (cfg.offlineMode = false →
      getWithCache cfg net now endpoint st =
        match net endpoint with
        | .error e2 => .error e2
        | .ok data =>
          .ok (data, { st with
            cache := cacheSet st.cache now (apiCacheKey endpoint) data cfg.cacheTtl })) := by
  have hget : cacheGet st.cache now (apiCacheKey endpoint) = some [] := by
    simp [cacheGet, hfile, hfresh]
  refine ⟨hget, ?_, ?_⟩
  · intro hoff
    simp [getWithCache, hforce, hget, hoff]
  · intro hoff
    rcases hnet : net endpoint with e2 | data <;>
      simp [getWithCache, hforce, hget, hoff, hnet]

/-- A state whose cache holds a valid entry with the falsy value `[]`. -/
def c10State : ClientState :=
  ⟨cacheSet (emptyStore _) 0 "eol_api_django" [] 86400, fun _ => none⟩

/-- Witness for the falsy-cache-value behavior at concrete inputs. -/
theorem c10_falsy_cached_value_witness :
    cacheGet c10State.cache 0 "eol_api_django" = some [] ∧
    getWithCache ⟨true, false, 86400⟩ c4Net 0 "django" c10State =
      .error (noCachedDataMsg "django") ∧
    getWithCache ⟨false, false, 86400⟩ c4Net 0 "django" c10State =
      .ok ([c4Cycle], { c10State with
        cache := cacheSet c10State.cache 0 "eol_api_django" [c4Cycle] 86400 }) :=
  ⟨(c10_falsy_cached_value ⟨true, false, 86400⟩ c4Net 0 "django" c10State 86400
      rfl rfl (by decide)).1,
   (c10_falsy_cached_value ⟨true, false, 86400⟩ c4Net 0 "django" c10State 86400
      rfl rfl (by decide)).2.1 rfl,
   ((c10_falsy_cached_value ⟨false, false, 86400⟩ c4Net 0 "django" c10State 86400
      rfl rfl (by decide)).2.2 rfl).trans rfl⟩

/-- Helper: a memoized availability answer short-circuits the probe and
leaves the state unchanged. -/
theorem isProductAvailable_memo (cfg : ClientConfig) (net : Network)
    (now : Int) (p : String) (st : ClientState) (b : Bool)
    (h : st.availableProducts p = some b) :
    isProductAvailable cfg net now p st = (b, st) := by
  simp [isProductAvailable, h]

/-- C5: version matching gives pass 1 (exact cycle-string prefix of the
normalized version, first match in catalog order) priority over pass 2
(equal leading dot-separated component), which is consulted only when pass 1
finds nothing. -/
theorem c5_match_precedence (cfg : ClientConfig) (net : Network) (now : Int)
    (pkg ver : String) (st : ClientState) (vs : List ReleaseCycle)
    (st' : ClientState)
    (hav : st.availableProducts (getProductName pkg) = some true)
    (hfetch : getWithCache cfg net now (getProductName pkg) st = .ok (vs, st')) :
    (∀ vi, vs.find? (cycleExactMatch (normalize_version ver)) = some vi →
        (getEolInfo cfg net now pkg ver st).1 = some vi) ∧
    (vs.find? (cycleExactMatch (normalize_version ver)) = none →
        (getEolInfo cfg net now pkg ver st).1 =
          vs.find? (cycleMajorMatch (normalize_version ver))) := by
  have hpa : isProductAvailable cfg net now (getProductName pkg) st = (true, st) :=
    isProductAvailable_memo cfg net now (getProductName pkg) st true hav
  constructor
  · intro vi hfind
    simp [getEolInfo, getEolInfoCore, hpa, hfetch, matchCycles, hfind]
  · intro hfind
    simp [getEolInfo, getEolInfoCore, hpa, hfetch, matchCycles, hfind]

/-- The catalog of the claim's concrete scenario: cycle `"3.2"` with an EOL
date, then cycle `"3"` still supported, in that catalog order. -/
def c5Cycle32 : ReleaseCycle :=
  ⟨some "3.2", some (.jdate ⟨2025, 1, 1⟩), none⟩

def c5Cycle3 : ReleaseCycle :=
  ⟨some "3", some (.jbool false), none⟩

def c5Cycles : List ReleaseCycle :=
  [c5Cycle32, c5Cycle3]

/-- A state that already knows `django` is available and has its catalog
cached. -/
def c5State : ClientState :=
  ⟨cacheSet (emptyStore _) 0 "eol_api_django" c5Cycles 86400,
   fun p => if p = "django" then some true else none⟩

def c5Net : Network :=
  fun _ => .error "network unavailable"

/-- Witness: for catalog `["3.2" (eol date), "3" (eol false)]` and version
`"3.2.1"`, the selected cycle is `"3.2"`, not the major-only `"3"`. -/
theorem c5_match_precedence_witness :
    (getEolInfo ⟨false, false, 86400⟩ c5Net 0 "django" "3.2.1" c5State).1 =
      some c5Cycle32 :=
  (c5_match_precedence ⟨false, false, 86400⟩ c5Net 0 "django" "3.2.1" c5State
      c5Cycles c5State rfl rfl).1 c5Cycle32 (by decide)

/-- C6: when the matched release cycle carries a concrete EOL date `e`, the
per-dependency check computes `daysRemaining = e - today` in integer days
(negative when past) and classifies CRITICAL when `daysRemaining < 0`,
WARNING when `0 ≤ daysRemaining < thresholdDays`, OK when
`daysRemaining ≥ thresholdDays`, incrementing the matching summary bucket. -/
theorem c6_classification (cfg : ClientConfig) (net : Network) (now : Int)
    (today : Date) (thresholdDays : Int) (dep : Dep) (st : ClientState)
    (info : ReleaseCycle) (e : Date)
    (hthr : 0 ≤ thresholdDays)
    (hinfo : (getEolInfo cfg net now dep.name dep.version st).1 = some info)
    (heol : info.eol = some (.jdate e)) :
    ((checkDependency cfg net now today thresholdDays dep st).1.1.daysRemaining =
        some (dateDiffDays e today)) ∧
    (dateDiffDays e today < 0 →
      (checkDependency cfg net now today thresholdDays dep st).1.1.status = "CRITICAL" ∧
      (checkDependency cfg net now today thresholdDays dep st).1.2 = "critical") ∧
    (0 ≤ dateDiffDays e today → dateDiffDays e today < thresholdDays →
      (checkDependency cfg net now today thresholdDays dep st).1.1.status = "WARNING" ∧
      (checkDependency cfg net now today thresholdDays dep st).1.2 = "warning") ∧
    (thresholdDays ≤ dateDiffDays e today →
      (checkDependency cfg net now today thresholdDays dep st).1.1.status = "OK" ∧
      (checkDependency cfg net now today thresholdDays dep st).1.2 = "ok") := by
  have hcd : checkDependency cfg net now today thresholdDays dep st =
      checkDependencyCore cfg net now today thresholdDays dep (some info)
        (getEolInfo cfg net now dep.name dep.version st).2 := by
    rw [checkDependency, hinfo]
  rw [hcd]
  simp only [checkDependencyCore, heol]
  refine ⟨by simp, ?_, ?_, ?_⟩
  · intro hd
    simp [classifyStatusKey, hd]
  · intro hd0 hdt
    have hnd : ¬ dateDiffDays e today < 0 := by omega
    simp [classifyStatusKey, hnd, hdt]
  · intro hdt
    have hnd : ¬ dateDiffDays e today < 0 := by omega
    have hnw : ¬ dateDiffDays e today < thresholdDays := by omega
    simp [classifyStatusKey, hnd, hnw]

/-- A one-cycle catalog for `django` whose cycle `"3.2"` has EOL date `d`. -/
def c6Net (d : Date) : Network :=
  fun e => if e = "django" then .ok [⟨some "3.2", some (.jdate d), some "9.9.9"⟩]
           else .error "HTTP 404"

/-- Witness for the classification boundaries of the claim: with
`thresholdDays = 90` and `today = 2024-01-01`, an EOL of 2023-12-01 is
CRITICAL with -31 days, 2024-02-01 is WARNING with 31 days, 2025-01-01 is
OK with 366 days. -/
theorem c6_classification_witness :
    ((checkDependency cfgDefault (c6Net ⟨2023, 12, 1⟩) 0 ⟨2024, 1, 1⟩ 90
        ⟨"django", "3.2.1"⟩ freshState).1.1.status = "CRITICAL" ∧
     (checkDependency cfgDefault (c6Net ⟨2023, 12, 1⟩) 0 ⟨2024, 1, 1⟩ 90
        ⟨"django", "3.2.1"⟩ freshState).1.1.daysRemaining = some (-31)) ∧
    ((checkDependency cfgDefault (c6Net ⟨2024, 2, 1⟩) 0 ⟨2024, 1, 1⟩ 90
        ⟨"django", "3.2.1"⟩ freshState).1.1.status = "WARNING" ∧
     (checkDependency cfgDefault (c6Net ⟨2024, 2, 1⟩) 0 ⟨2024, 1, 1⟩ 90
        ⟨"django", "3.2.1"⟩ freshState).1.1.daysRemaining = some 31) ∧
    ((checkDependency cfgDefault (c6Net ⟨2025, 1, 1⟩) 0 ⟨2024, 1, 1⟩ 90
        ⟨"django", "3.2.1"⟩ freshState).1.1.status = "OK" ∧
     (checkDependency cfgDefault (c6Net ⟨2025, 1, 1⟩) 0 ⟨2024, 1, 1⟩ 90
        ⟨"django", "3.2.1"⟩ freshState).1.1.daysRemaining = some 366) := by
  have h1 := c6_classification cfgDefault (c6Net ⟨2023, 12, 1⟩) 0 ⟨2024, 1, 1⟩ 90
    ⟨"django", "3.2.1"⟩ freshState ⟨some "3.2", some (.jdate ⟨2023, 12, 1⟩), some "9.9.9"⟩
    ⟨2023, 12, 1⟩ (by decide) (by decide) rfl
  have h2 := c6_classification cfgDefault (c6Net ⟨2024, 2, 1⟩) 0 ⟨2024, 1, 1⟩ 90
    ⟨"django", "3.2.1"⟩ freshState ⟨some "3.2", some (.jdate ⟨2024, 2, 1⟩), some "9.9.9"⟩
    ⟨2024, 2, 1⟩ (by decide) (by decide) rfl
  have h3 := c6_classification cfgDefault (c6Net ⟨2025, 1, 1⟩) 0 ⟨2024, 1, 1⟩ 90
    ⟨"django", "3.2.1"⟩ freshState ⟨some "3.2", some (.jdate ⟨2025, 1, 1⟩), some "9.9.9"⟩
    ⟨2025, 1, 1⟩ (by decide) (by decide) rfl
  exact ⟨⟨(h1.2.1 (by decide)).1, h1.1.trans (by decide)⟩,
         ⟨(h2.2.2.1 (by decide) (by decide)).1, h2.1.trans (by decide)⟩,
         ⟨(h3.2.2.2 (by decide)).1, h3.1.trans (by decide)⟩⟩

/-- C1 counterexample: a dependency whose matched cycle has `eol = false`
(still supported) does NOT get status UNKNOWN: `strptime` rejects the
boolean, the per-dependency handler catches the `TypeError`, and the status
is ERROR. -/
theorem c1_counterexample :
    (getEolInfo cfgDefault c4Net 0 "django" "3.2.1" freshState).1 = some c4Cycle ∧
    c4Cycle.eol = some (.jbool false) ∧
    (checkDependency cfgDefault c4Net 0 ⟨2023, 1, 1⟩ 90 ⟨"django", "3.2.1"⟩
        freshState).1.1.status = "ERROR" ∧
    (checkDependency cfgDefault c4Net 0 ⟨2023, 1, 1⟩ 90 ⟨"django", "3.2.1"⟩
        freshState).1.1.status ≠ "UNKNOWN" := by
  decide

/-- C1 (amended): the resolution status is UNKNOWN exactly in the "no EOL
info" cases — no catalog entry matched, or the matched cycle has no `eol`
key; when the matched cycle's `eol` is a JSON boolean (`false` meaning
supported indefinitely, or `true`), the date parse raises and the
per-dependency handler yields status ERROR instead, though it still
increments the same `unknown` summary bucket. -/
theorem c1_unknown_vs_error (cfg : ClientConfig) (net : Network) (now : Int)
    (today : Date) (thresholdDays : Int) (dep : Dep) (st : ClientState) :
    ((getEolInfo cfg net now dep.name dep.version st).1 = none →
      (checkDependency cfg net now today thresholdDays dep st).1.1.status = "UNKNOWN" ∧
      (checkDependency cfg net now today thresholdDays dep st).1.2 = "unknown") ∧
    (∀ info, (getEolInfo cfg net now dep.name dep.version st).1 = some info →
      info.eol = none →
      (checkDependency cfg net now today thresholdDays dep st).1.1.status = "UNKNOWN" ∧
      (checkDependency cfg net now today thresholdDays dep st).1.2 = "unknown") ∧
    (∀ info b, (getEolInfo cfg net now dep.name dep.version st).1 = some info →
      info.eol = some (.jbool b) →
      (checkDependency cfg net now today thresholdDays dep st).1.1.status = "ERROR" ∧
      (checkDependency cfg net now today thresholdDays dep st).1.1.error =
        some strptimeTypeErrorMsg ∧
      (checkDependency cfg net now today thresholdDays dep st).1.2 = "unknown") := by
  refine ⟨?_, ?_, ?_⟩
  · intro h
    rw [checkDependency, h]
    simp [checkDependencyCore, unknownResult]
  · intro info h heol
    rw [checkDependency, h]
    simp [checkDependencyCore, heol, unknownResult]
  · intro info b h heol
    rw [checkDependency, h]
    simp [checkDependencyCore, heol]

/-- Witness: with catalog cycle `3.2` having `eol=false`, the check of
`django 3.2.1` ends in ERROR (bucket `unknown`); with a product absent from
the catalog, it ends in UNKNOWN. -/
theorem c1_unknown_vs_error_witness :
    (checkDependency cfgDefault c4Net 0 ⟨2023, 1, 1⟩ 90 ⟨"django", "3.2.1"⟩
        freshState).1.1.status = "ERROR" ∧
    (checkDependency cfgDefault c4Net 0 ⟨2023, 1, 1⟩ 90 ⟨"django", "3.2.1"⟩
        freshState).1.2 = "unknown" ∧
    (checkDependency cfgDefault c5Net 0 ⟨2023, 1, 1⟩ 90 ⟨"left-pad", "1.0.0"⟩
        freshState).1.1.status = "UNKNOWN" := by
  have hb := (c1_unknown_vs_error cfgDefault c4Net 0 ⟨2023, 1, 1⟩ 90
    ⟨"django", "3.2.1"⟩ freshState).2.2 c4Cycle false (by decide) rfl
  have hn := (c1_unknown_vs_error cfgDefault c5Net 0 ⟨2023, 1, 1⟩ 90
    ⟨"left-pad", "1.0.0"⟩ freshState).1 (by decide)
  exact ⟨hb.1, hb.2.2, hn.1⟩

/-- C2 counterexample: with an empty cache and offline mode, a dependency
requiring a network fetch resolves to UNKNOWN with no error recorded — not
to ERROR carrying NoCachedData: the `ValueError` is raised inside the
availability probe, which swallows every exception. -/
theorem c2_counterexample :
    (checkDependency ⟨true, false, 86400⟩ c5Net 0 ⟨2023, 1, 1⟩ 90
        ⟨"django", "3.2.1"⟩ freshState).1.1.status = "UNKNOWN" ∧
    (checkDependency ⟨true, false, 86400⟩ c5Net 0 ⟨2023, 1, 1⟩ 90
        ⟨"django", "3.2.1"⟩ freshState).1.1.status ≠ "ERROR" ∧
    (checkDependency ⟨true, false, 86400⟩ c5Net 0 ⟨2023, 1, 1⟩ 90
        ⟨"django", "3.2.1"⟩ freshState).1.1.error = none := by
  decide

/-- C2 (amended): with an empty cache and offline mode enabled, every
dependency whose product would require a network fetch resolves to status
UNKNOWN — the NoCachedData `ValueError` raised by `_get_with_cache` is
swallowed by `_is_product_available`, which records the product as
unavailable — with no error recorded on the resolution; the cache stays
empty, so no other dependency's resolution is affected and the run
completes. -/
theorem c2_offline_empty_cache (cfg : ClientConfig) (net : Network)
    (now : Int) (today : Date) (thresholdDays : Int) (dep : Dep)
    (st : ClientState)
    (hoff : cfg.offlineMode = true)
    (hcache : ∀ f, st.cache f = none)
    (hmemo : st.availableProducts (getProductName dep.name) = none) :
    (checkDependency cfg net now today thresholdDays dep st).1.1.status = "UNKNOWN" ∧
    (checkDependency cfg net now today thresholdDays dep st).1.1.error = none ∧
    (checkDependency cfg net now today thresholdDays dep st).1.2 = "unknown" ∧
    (∀ f, (checkDependency cfg net now today thresholdDays dep st).2.cache f = none) := by
  have hget : ∀ k, cacheGet st.cache now k = none := by
    intro k
    simp [cacheGet, hcache]
  have hgw : getWithCache cfg net now (getProductName dep.name) st =
      .error (noCachedDataMsg (getProductName dep.name)) := by
    cases hf : cfg.forceUpdate <;> simp [getWithCache, hf, hget, hoff]
  have hpa : isProductAvailable cfg net now (getProductName dep.name) st =
      (false, { st with availableProducts :=
        fun p => if p = getProductName dep.name then some false
                 else st.availableProducts p }) := by
    simp [isProductAvailable, hmemo, hgw]
  have hei : getEolInfo cfg net now dep.name dep.version st =
      (none, { st with availableProducts :=
        fun p => if p = getProductName dep.name then some false
                 else st.availableProducts p }) := by
    simp [getEolInfo, getEolInfoCore, hpa]
  rw [checkDependency, hei]
  exact ⟨rfl, rfl, rfl, fun f => hcache f⟩

/-- Witness for the offline/empty-cache behavior at concrete inputs. -/
theorem c2_offline_empty_cache_witness :
    (checkDependency ⟨true, false, 86400⟩ c5Net 0 ⟨2023, 1, 1⟩ 90
        ⟨"requests", "2.28.0"⟩ freshState).1.1.status = "UNKNOWN" ∧
    (checkDependency ⟨true, false, 86400⟩ c5Net 0 ⟨2023, 1, 1⟩ 90
        ⟨"requests", "2.28.0"⟩ freshState).2.cache "eol_api_requests.json" = none := by
  have h := c2_offline_empty_cache ⟨true, false, 86400⟩ c5Net 0 ⟨2023, 1, 1⟩ 90
    ⟨"requests", "2.28.0"⟩ freshState rfl (fun _ => rfl) rfl
  exact ⟨h.1, h.2.2.2 "eol_api_requests.json"⟩

/-- A catalog for `django` whose only cycle is already EOL, with
`latest = "4.0.1"`, while the dependency sits at `3.2.1`. -/
def c8Net : Network :=
  fun e => if e = "django" then
             .ok [⟨some "3.2", some (.jdate ⟨2022, 4, 1⟩), some "4.0.1"⟩]
           else .error "HTTP 404"

/-- C8 counterexample: on the all-cycles-EOL fallback path the recommended
version comes from the matched cycle's own `latest` and the breaking-change
check is never run: recommending `"4.0.1"` for a dependency at `"3.2.1"`
leaves `hasBreakingChanges = false`, although the leading integer
components 3 and 4 differ. -/
theorem c8_counterexample :
    (checkDependency cfgDefault c8Net 0 ⟨2023, 1, 1⟩ 90 ⟨"django", "3.2.1"⟩
        freshState).1.1.recommendedVersion = some "4.0.1" ∧
    (checkDependency cfgDefault c8Net 0 ⟨2023, 1, 1⟩ 90 ⟨"django", "3.2.1"⟩
        freshState).1.1.status = "CRITICAL" ∧
    (checkDependency cfgDefault c8Net 0 ⟨2023, 1, 1⟩ 90 ⟨"django", "3.2.1"⟩
        freshState).1.1.hasBreakingChanges = false ∧
    has_major_version_change "3.2.1" "4.0.1" = true := by
  decide

/-- C8 (amended): when the recommendation comes from the first currently
active (non-EOL) catalog cycle, `hasBreakingChanges` is true exactly when
the recommended version is truthy and its leading integer component differs
from the dependency version's; but when no cycle is active and the
recommendation falls back to the matched cycle's own `latest`, the flag is
left false unconditionally. -/
theorem c8_breaking_change_flag (today : Date) (depVersion : String)
    (allVersions : List ReleaseCycle) (eolInfo : ReleaseCycle) :
    (∀ la rest, allVersions.filter (isActiveCycle today) = la :: rest →
      (recommendFromVersions today depVersion allVersions eolInfo).1 = la.latest ∧
      ∀ r, la.latest = some r →
        ((recommendFromVersions today depVersion allVersions eolInfo).2 = true ↔
          r ≠ "" ∧ has_major_version_change depVersion r = true)) ∧
    (allVersions.filter (isActiveCycle today) = [] →
      (recommendFromVersions today depVersion allVersions eolInfo).1 = eolInfo.latest ∧
      (recommendFromVersions today depVersion allVersions eolInfo).2 = false) ∧
    (∀ r c cs rh rt, parse_version depVersion = c :: cs → parse_version r = rh :: rt →
      depVersion ≠ "" → r ≠ "" →
      (has_major_version_change depVersion r = true ↔ c ≠ rh)) := by
  refine ⟨?_, ?_, ?_⟩
  · intro la rest hfilter
    constructor
    · rcases hl : la.latest with _ | r <;>
        simp [recommendFromVersions, hfilter, hl]
    · intro r hl
      simp [recommendFromVersions, hfilter, hl, ne_eq]
  · intro hfilter
    simp [recommendFromVersions, hfilter]
  · intro r c cs rh rt hc hr hdv hrv
    simp [has_major_version_change, hdv, hrv, hc, hr]

/-- An active (non-EOL) catalog row whose `latest` is `"4.0.1"`. -/
def c8Active42 : ReleaseCycle :=
  ⟨some "4.2", some (.jbool false), some "4.0.1"⟩

/-- An active (non-EOL) catalog row whose `latest` is `"3.3.0"`. -/
def c8Active33 : ReleaseCycle :=
  ⟨some "3.3", some (.jbool false), some "3.3.0"⟩

/-- Witness: on the active path, recommending `"4.0.1"` for `"3.2.1"` flags
a breaking change and recommending `"3.3.0"` for `"3.2.1"` does not. -/
theorem c8_breaking_change_flag_witness :
    (recommendFromVersions ⟨2023, 1, 1⟩ "3.2.1" [c8Active42] c4Cycle).1 = some "4.0.1" ∧
    (recommendFromVersions ⟨2023, 1, 1⟩ "3.2.1" [c8Active42] c4Cycle).2 = true ∧
    (recommendFromVersions ⟨2023, 1, 1⟩ "3.2.1" [c8Active33] c4Cycle).2 = false := by
  have h1 := (c8_breaking_change_flag ⟨2023, 1, 1⟩ "3.2.1" [c8Active42] c4Cycle).1
    c8Active42 [] (by decide)
  have h2 := (c8_breaking_change_flag ⟨2023, 1, 1⟩ "3.2.1" [c8Active33] c4Cycle).1
    c8Active33 [] (by decide)
  refine ⟨h1.1.trans rfl, (h1.2 "4.0.1" rfl).mpr ⟨by decide, by decide⟩, ?_⟩
  have hiff := h2.2 "3.3.0" rfl
  cases hb : (recommendFromVersions ⟨2023, 1, 1⟩ "3.2.1" [c8Active33] c4Cycle).2 with
  | false => rfl
  | true =>
    rcases hiff.mp hb with ⟨-, hm⟩
    exact absurd hm (by decide)

/-- Helper: the aggregation fold is the four per-key occurrence counts added
to the starting summary. -/
theorem foldl_bump_counts (pairs : List (DepResult × String)) (s0 : Summary) :
    pairs.foldl (fun s p => bumpSummary s p.2) s0 =
      ⟨s0.critical + pairs.countP (fun p => p.2 == "critical"),
       s0.warning + pairs.countP (fun p => p.2 == "warning"),
       s0.ok + pairs.countP (fun p => p.2 == "ok"),
       s0.unknown + pairs.countP (fun p => p.2 == "unknown")⟩ := by
  induction pairs generalizing s0 with
  | nil => simp
  | cons hd tl ih =>
    rw [List.foldl_cons, ih]
    simp only [List.countP_cons]
    by_cases h1 : hd.2 = "critical"
    · simp [bumpSummary, h1, Summary.mk.injEq]
      omega
    · by_cases h2 : hd.2 = "warning"
      · simp [bumpSummary, h1, h2, Summary.mk.injEq]
        omega
      · by_cases h3 : hd.2 = "ok"
        · simp [bumpSummary, h1, h2, h3, Summary.mk.injEq]
          omega
        · by_cases h4 : hd.2 = "unknown"
          · simp [bumpSummary, h1, h2, h3, h4, Summary.mk.injEq]
            omega
          · simp [bumpSummary, h1, h2, h3, h4, Summary.mk.injEq]

/-- Helper: when every summary key is one of the four, the four counts
cover the list exactly once each. -/
theorem countP_four_sum (pairs : List (DepResult × String)) :
    (∀ p ∈ pairs, p.2 ∈ validSummaryKeys) →
    pairs.countP (fun p => p.2 == "critical") +
    pairs.countP (fun p => p.2 == "warning") +
    pairs.countP (fun p => p.2 == "ok") +
    pairs.countP (fun p => p.2 == "unknown") = pairs.length := by
  induction pairs with
  | nil => intro _; simp
  | cons hd tl ih =>
    intro hvalid
    have hhd : hd.2 ∈ validSummaryKeys := hvalid hd (by simp)
    have ihtl := ih (fun p hp => hvalid p (by simp [hp]))
    simp only [List.countP_cons, List.length_cons]
    have hcases : hd.2 = "critical" ∨ hd.2 = "warning" ∨ hd.2 = "ok" ∨ hd.2 = "unknown" := by
      simpa [validSummaryKeys] using hhd
    rcases hcases with h | h | h | h <;> simp [h] <;> omega

/-- C9: the summary aggregation of `check_project` is order-independent and
counts every dependency exactly once: any permutation of the completion
order of the `(result, summary_key)` pairs yields the same `Summary`; one
bump on a valid key raises the total by exactly one; with every key valid
the four counters sum to the number of dependencies; and `check_dependency`
always hands back one of the four keys, with an ERROR result incrementing
the same bucket as UNKNOWN. -/
theorem c9_summary_aggregation :
    (∀ pairs pairs2 : List (DepResult × String), pairs.Perm pairs2 →
      aggregateSummary pairs = aggregateSummary pairs2) ∧
    (∀ (s : Summary) (key : String), key ∈ validSummaryKeys →
      (bumpSummary s key).total = s.total + 1) ∧
    (∀ pairs : List (DepResult × String), (∀ p ∈ pairs, p.2 ∈ validSummaryKeys) →
      (aggregateSummary pairs).total = pairs.length) ∧
    (∀ (cfg : ClientConfig) (net : Network) (now : Int) (today : Date)
       (thresholdDays : Int) (dep : Dep) (st : ClientState),
      (checkDependency cfg net now today thresholdDays dep st).1.2 ∈ validSummaryKeys ∧
      ((checkDependency cfg net now today thresholdDays dep st).1.1.status = "ERROR" →
        (checkDependency cfg net now today thresholdDays dep st).1.2 = "unknown")) := by
  refine ⟨?_, ?_, ?_, ?_⟩
  · intro pairs pairs2 hp
    unfold aggregateSummary
    rw [foldl_bump_counts, foldl_bump_counts]
    simp only [hp.countP_eq]
  · intro s key hk
    have hcases : key = "critical" ∨ key = "warning" ∨ key = "ok" ∨ key = "unknown" := by
      simpa [validSummaryKeys] using hk
    rcases hcases with h | h | h | h <;> simp [bumpSummary, h, Summary.total] <;> omega
  · intro pairs hvalid
    unfold aggregateSummary
    rw [foldl_bump_counts]
    simpa [Summary.total, Summary.zero, Nat.add_assoc] using countP_four_sum pairs hvalid
  · intro cfg net now today thresholdDays dep st
    have hcd : checkDependency cfg net now today thresholdDays dep st =
        checkDependencyCore cfg net now today thresholdDays dep
          (getEolInfo cfg net now dep.name dep.version st).1
          (getEolInfo cfg net now dep.name dep.version st).2 := rfl
    rw [hcd]
    rcases hg : (getEolInfo cfg net now dep.name dep.version st).1 with _ | info
    · simp [checkDependencyCore, unknownResult, validSummaryKeys]
    · rcases heol : info.eol with _ | ev
      · simp [checkDependencyCore, heol, unknownResult, validSummaryKeys]
      · cases ev with
        | jbool b => simp [checkDependencyCore, heol, validSummaryKeys]
        | jdate e =>
          simp only [checkDependencyCore, heol]
          unfold classifyStatusKey
          split_ifs <;> simp [validSummaryKeys]

/-- Two completed resolutions used to witness the aggregation properties. -/
def c9PairA : DepResult × String :=
  (unknownResult ⟨"react", "17.0.2"⟩, "ok")

def c9PairB : DepResult × String :=
  (unknownResult ⟨"vue", "2.6.14"⟩, "unknown")

/-- Witness: swapping the completion order of two resolutions leaves the
summary unchanged, the counters sum to the dependency count, a bump on a
valid key adds one to the total, and a concrete `check_dependency` run
hands back a valid summary key. -/
theorem c9_summary_aggregation_witness :
    aggregateSummary [c9PairA, c9PairB] = aggregateSummary [c9PairB, c9PairA] ∧
    (aggregateSummary [c9PairA, c9PairB]).total = 2 ∧
    (bumpSummary Summary.zero "critical").total = Summary.zero.total + 1 ∧
    (checkDependency cfgDefault c4Net 0 ⟨2023, 1, 1⟩ 90 ⟨"django", "3.2.1"⟩
        freshState).1.2 ∈ validSummaryKeys :=
  ⟨c9_summary_aggregation.1 [c9PairA, c9PairB] [c9PairB, c9PairA]
      (List.Perm.swap c9PairB c9PairA []),
   (c9_summary_aggregation.2.2.1 [c9PairA, c9PairB] (by decide)).trans (by decide),
   c9_summary_aggregation.2.1 Summary.zero "critical" (by decide),
   (c9_summary_aggregation.2.2.2 cfgDefault c4Net 0 ⟨2023, 1, 1⟩ 90
      ⟨"django", "3.2.1"⟩ freshState).1⟩
